import Mathlib

/-!
Verification of the RedCart backend payment-reconciliation subsystem.

The definitions below are a shallow embedding of the TypeScript source:
the M-Pesa callback handler and poll-based reconciler
(src/modules/payments/payments.routes.ts), the orders read handlers and
checkout transaction (src/modules/orders/orders.routes.ts and its variant
calling reconcilePendingMpesaPaymentsForUser), the receipt-issuance service
(receipts.service.ts) and the phone normalization helper (src/lib/mpesa.ts).
JavaScript JSON values are modelled by an inductive `Json` type, JS records by
association lists with first-match lookup, monetary amounts by rationals, and
the database rows touched by each handler by explicit state structures that the
handlers transform functionally.
-/

namespace RedCart

/-- A JSON value as manipulated by the handlers.  JS `undefined` is collapsed
into `null`: every operation the source applies (nullish coalescing,
truthiness, property access) treats the two identically. -/
inductive Json where
  | null : Json
  | bool : Bool → Json
  | num : Int → Json
  | str : String → Json
  | arr : List Json → Json
  | obj : List (String × Json) → Json

/-- A JS plain-object record: an association list of fields. -/
abbrev JsonRecord := List (String × Json)

/-- First-match lookup of a field in a record. -/
def jsLookup (r : JsonRecord) (k : String) : Option Json :=
  (r.find? (fun p => p.1 = k)).map (fun p => p.2)

/-- JS object spread `\x7b...a, ...b\x7d`: fields of `b` override fields of `a`;
fields of `a` whose keys do not occur in `b` survive. -/
def jsSpread (a b : JsonRecord) : JsonRecord :=
  b ++ a.filter (fun p => (jsLookup b p.1).isNone)

/-- Model of `toJsonRecord` from payments.routes.ts: a non-array object passes through,
anything else becomes the empty record. -/
def toJsonRecord : Json → JsonRecord
  | .obj fields => fields
  | _ => []

/-- JS property access `v.k` (and the optional-chained `v?.k`): on an object,
look the key up (absent keys give `undefined`, modelled `null`); on any other
value the handlers only ever reach this through optional chaining or on values
whose property is absent, so the result is `null`. -/
def jsGet (j : Json) (k : String) : Json :=
  match j with
  | .obj fields => (jsLookup fields k).getD .null
  | _ => .null

/-- JS nullish coalescing `a ?? b`. -/
def jsCoalesce (a b : Json) : Json :=
  match a with
  | .null => b
  | v => v

/-- JS truthiness test (`if (!x)`): null, false, 0 and "" are falsy. -/
def jsFalsy : Json → Bool
  | .null => true
  | .bool b => !b
  | .num n => n = 0
  | .str s => s = ""
  | .arr _ => false
  | .obj _ => false

/-- Decimal digit characters of a natural number, most significant first,
structurally recursive on a fuel bound (any fuel above the digit count gives
the same digits). -/
def decDigitsAux : Nat → Nat → List Char
  | 0, _ => []
  | fuel + 1, n =>
    if n < 10 then
      [Char.ofNat (48 + n)]
    else
      decDigitsAux fuel (n / 10) ++ [Char.ofNat (48 + n % 10)]

/-- Decimal digit characters of a natural number, most significant first,
mirroring how JS stringifies an integral number. -/
def decDigits (n : Nat) : List Char :=
  decDigitsAux (n + 1) n

/-- JS decimal string of a nonnegative integer. -/
def decStr (n : Nat) : String :=
  String.mk (decDigits n)

/-- JS `String.prototype.trim`, at the character-list level: whitespace
stripped from both ends. -/
def jsTrim (s : String) : String :=
  String.mk (((s.data.dropWhile Char.isWhitespace).reverse.dropWhile Char.isWhitespace).reverse)

/-- Whether `s` starts with the characters of `p` (the regex anchors
`/^254.../` of the phone patterns). -/
def strStartsWith (s p : String) : Bool :=
  s.data.take p.data.length = p.data

/-- The numeric value of a list of decimal digit characters. -/
def decToNat (l : List Char) : Nat :=
  l.foldl (fun a c => a * 10 + (c.toNat - 48)) 0

/-- JS `String(v)` coercion for the value shapes the handlers feed it. -/
def jsToString : Json → String
  | .null => "null"
  | .bool b => if b then "true" else "false"
  | .num n => if n < 0 then "-" ++ decStr n.natAbs else decStr n.natAbs
  | .str s => s
  | .arr _ => ""
  | .obj _ => "[object Object]"

/-- JS `Number(v)` coercion; `none` stands for NaN. -/
def jsToNumber : Json → Option Int
  | .null => some 0
  | .bool b => some (if b then 1 else 0)
  | .num n => some n
  | .str s =>
    if jsTrim s = "" then some 0
    else if (jsTrim s).data.all Char.isDigit then some (decToNat (jsTrim s).data)
    else none
  | .arr [] => some 0
  | .arr [x] => jsToNumber x
  | .arr _ => none
  | .obj _ => none

/-- An application-level error: HTTP status and message (utils/appError.ts). -/
structure AppErr where
  message : String
  status : Nat
deriving DecidableEq, Repr

end RedCart

namespace RedCart

/-- The digit residue `normalizeKenyanPhoneNumber` computes: every non-digit character stripped
(src/lib/mpesa.ts, the `/\D+/g` replace). -/
def stripNonDigits (s : String) : String :=
  String.mk (s.data.filter (fun c => c.isDigit))

/-- Model of `normalizeKenyanPhoneNumber` from src/lib/mpesa.ts: on the all-digit
residue, accept `254` + 9 digits unchanged, `0` + 9 digits with the zero
replaced by `254`, and a bare 9-digit subscriber number prefixed with `254`;
reject everything else with a 422 validation error. -/
def normalizeKenyanPhoneNumber (input : String) : Except AppErr String :=
  if (stripNonDigits input).length = 12 && strStartsWith (stripNonDigits input) "254" then
    .ok (stripNonDigits input)
  else if (stripNonDigits input).length = 10 && strStartsWith (stripNonDigits input) "0" then
    .ok ("254" ++ (stripNonDigits input).drop 1)
  else if (stripNonDigits input).length = 9 then
    .ok ("254" ++ stripNonDigits input)
  else
    .error ⟨"Invalid Kenyan phone number format for M-Pesa", 422⟩

/-- The three accepted digit-residue shapes, as one function: international
form kept, leading-zero local form and bare subscriber form prefixed. -/
def acceptedKenyanForm (digits : String) : Option String :=
  if digits.length = 12 && strStartsWith digits "254" then some digits
  else if digits.length = 10 && strStartsWith digits "0" then some ("254" ++ digits.drop 1)
  else if digits.length = 9 then some ("254" ++ digits)
  else none

/-- Payment.status column values. -/
inductive PaymentStatus where
  | PENDING
  | SUCCESS
  | FAILED
deriving DecidableEq, Repr

/-- Order.status column values reachable in the payment flow. -/
inductive OrderStatus where
  | PENDING_PAYMENT
  | CONFIRMED
deriving DecidableEq, Repr

/-- Payment.provider column values. -/
inductive PaymentProvider where
  | MPESA
  | CARD
deriving DecidableEq, Repr

/-- The columns of a Payment row that the reconciliation engine touches.
`amount` is the whole-currency amount used as the meta `amount` fallback. -/
structure PaymentRow where
  status : PaymentStatus
  transactionRef : Option String
  meta : Json
  amount : Int

/-- The slice of the store a callback or poll transaction reads and writes:
one M-Pesa Payment row together with its owning Order's status. -/
structure PayState where
  payment : PaymentRow
  orderStatus : OrderStatus

/-- Side effects fired after a successful transaction: confirmation-email
dispatch attempts and receipt-issuance invocations. -/
structure Effects where
  emails : Nat
  receiptRuns : Nat
deriving DecidableEq, Repr

def Effects.zero : Effects := ⟨0, 0⟩

def Effects.add (a b : Effects) : Effects := ⟨a.emails + b.emails, a.receiptRuns + b.receiptRuns⟩

/-- Model of `mergeMpesaMeta` from payments.routes.ts: spread the existing meta record,
overriding `mpesa` with the existing `mpesa` record spread-extended by
the patch. -/
def mergeMpesaMeta (current : Json) (patch : JsonRecord) : Json :=
  let existing := toJsonRecord current
  let currentMpesa := toJsonRecord ((jsLookup existing "mpesa").getD .null)
  Json.obj (jsSpread existing [("mpesa", Json.obj (jsSpread currentMpesa patch))])

/-- Model of `getMpesaMeta`: the `mpesa` sub-record of a meta value. -/
def getMpesaMeta (meta : Json) : JsonRecord :=
  toJsonRecord ((jsLookup (toJsonRecord meta) "mpesa").getD .null)

/-- JS `s || null`: the empty string collapses to null. -/
def strOrNull (s : String) : Json :=
  if s = "" then .null else .str s

/-- JS `a || b` with `a : string` and `b : string | null`. -/
def jsOrStrOpt (a : String) (b : Option String) : Option String :=
  if a = "" then b else some a

/-- JS `a || b` with `a : string | null` and `b : string`. -/
def jsOrOptStr (a : Option String) (b : String) : String :=
  match a with
  | some s => if s = "" then b else s
  | none => b

/-- A number persisted into a JSON column (NaN is stored as null). -/
def jsNumJson : Option Int → Json
  | some n => .num n
  | none => .null

/-- An optional string persisted into a JSON column. -/
def optStrJson : Option String → Json
  | some s => .str s
  | none => .null

/-- The items array `stkCallback.CallbackMetadata.Item` when present, else `[]`. -/
def callbackItems (stk : Json) : List Json :=
  match jsGet (jsGet stk "CallbackMetadata") "Item" with
  | .arr xs => xs
  | _ => []

/-- Model of `findCallbackValue`: the `Value` of the first metadata item whose `Name`
strictly equals the requested name. -/
def findCallbackValue (items : List Json) (name : String) : Json :=
  match items.find? (fun it =>
      match jsGet it "Name" with
      | .str s => s = name
      | _ => false) with
  | some it => jsGet it "Value"
  | none => .null

/-- Outcome of the callback handler: the committed state, the result code
echoed in the HTTP response, and the post-commit side effects. -/
structure CallbackOutcome where
  state : PayState
  resultCode : Option Int
  effects : Effects

/-- The envelope `req.body?.Body?.stkCallback`. -/
def cbStk (body : Json) : Json :=
  jsGet (jsGet body "Body") "stkCallback"

/-- The parsed `Number(stkCallback.ResultCode ?? -1)`: an absent result code defaults
to -1. -/
def cbResultCode (body : Json) : Option Int :=
  jsToNumber (jsCoalesce (jsGet (cbStk body) "ResultCode") (.num (-1)))

/-- The parsed `String(stkCallback.MerchantRequestID ?? "")`. -/
def cbMerchantRequestId (body : Json) : String :=
  jsToString (jsCoalesce (jsGet (cbStk body) "MerchantRequestID") (.str ""))

/-- The parsed `String(stkCallback.CheckoutRequestID ?? "")`. -/
def cbCheckoutRequestId (body : Json) : String :=
  jsToString (jsCoalesce (jsGet (cbStk body) "CheckoutRequestID") (.str ""))

/-- The parsed `String(stkCallback.ResultDesc ?? "")`. -/
def cbResultDesc (body : Json) : String :=
  jsToString (jsCoalesce (jsGet (cbStk body) "ResultDesc") (.str ""))

/-- A trimmed string metadata item (`String(findCallbackValue(n) ?? "").trim()`). -/
def cbNamedString (body : Json) (name : String) : String :=
  jsTrim (jsToString (jsCoalesce (findCallbackValue (callbackItems (cbStk body)) name) (.str "")))

/-- The transaction reference a success callback stores: the provider receipt
number, falling back to the checkout-session id when the metadata item is
absent (`String(findCallbackValue("MpesaReceiptNumber") ?? checkoutRequestId)`). -/
def cbReceiptNumber (body : Json) : String :=
  jsToString (jsCoalesce (findCallbackValue (callbackItems (cbStk body)) "MpesaReceiptNumber")
    (.str (cbCheckoutRequestId body)))

/-- The audit snapshot a success callback merges into `meta.mpesa`. -/
def successCallbackPatch (st : PayState) (body : Json) (now : String) : JsonRecord :=
  [("status", .str "SUCCESS"),
   ("callbackReceivedAt", .str now),
   ("resultCode", jsNumJson (cbResultCode body)),
   ("resultDesc", .str (cbResultDesc body)),
   ("merchantRequestId", .str (cbMerchantRequestId body)),
   ("checkoutRequestId", .str (cbCheckoutRequestId body)),
   ("amount", jsCoalesce (findCallbackValue (callbackItems (cbStk body)) "Amount") (.num st.payment.amount)),
   ("callbackPhoneNumber", strOrNull (cbNamedString body "PhoneNumber")),
   ("transactionDate", jsCoalesce (findCallbackValue (callbackItems (cbStk body)) "TransactionDate") .null),
   ("receiptNumber", .str (cbReceiptNumber body)),
   ("callbackFirstName", strOrNull (cbNamedString body "FirstName")),
   ("callbackMiddleName", strOrNull (cbNamedString body "MiddleName")),
   ("callbackLastName", strOrNull (cbNamedString body "LastName")),
   ("rawCallback", body)]

/-- The state committed by the success branch of the callback transaction. -/
def successCallbackState (st : PayState) (body : Json) (now : String) : PayState :=
  ⟨⟨.SUCCESS, some (cbReceiptNumber body),
    mergeMpesaMeta st.payment.meta (successCallbackPatch st body now), st.payment.amount⟩,
   .CONFIRMED⟩

/-- The audit snapshot a failure callback merges into `meta.mpesa`. -/
def failureCallbackPatch (body : Json) (now : String) : JsonRecord :=
  [("status", .str "FAILED"),
   ("callbackReceivedAt", .str now),
   ("resultCode", jsNumJson (cbResultCode body)),
   ("resultDesc", .str (cbResultDesc body)),
   ("merchantRequestId", .str (cbMerchantRequestId body)),
   ("checkoutRequestId", .str (cbCheckoutRequestId body)),
   ("rawCallback", body)]

/-- The state committed by the failure branch of the callback transaction:
note `transactionRef: checkoutRequestId || payment.transactionRef`, which
prefers the session id over an existing reference. -/
def failureCallbackState (st : PayState) (body : Json) (now : String) : PayState :=
  ⟨⟨.FAILED, jsOrStrOpt (cbCheckoutRequestId body) st.payment.transactionRef,
    mergeMpesaMeta st.payment.meta (failureCallbackPatch body now), st.payment.amount⟩,
   .PENDING_PAYMENT⟩

/-- The POST /mpesa/callback/:paymentId handler from payments.routes.ts,
applied to the state of the addressed payment.  `now` is the ISO timestamp
the handler records.  The 404 branch (unknown payment id) is outside this
per-row model; the 400 branch (falsy `Body.stkCallback`) throws before any
transaction, leaving the state untouched.  The `status !== SUCCESS` guards
make both the success and the failure transition a no-op on an already
successful payment, with no email and no receipt run. -/
def mpesaCallback (st : PayState) (body : Json) (now : String) : Except AppErr CallbackOutcome :=
  if jsFalsy (cbStk body) then
    .error ⟨"Invalid M-Pesa callback payload", 400⟩
  else if cbResultCode body = some 0 then
    if st.payment.status = .SUCCESS then
      .ok ⟨st, cbResultCode body, Effects.zero⟩
    else
      .ok ⟨successCallbackState st body now, cbResultCode body, ⟨1, 1⟩⟩
  else
    if st.payment.status = .SUCCESS then
      .ok ⟨st, cbResultCode body, Effects.zero⟩
    else
      .ok ⟨failureCallbackState st body now, cbResultCode body, Effects.zero⟩

/-- The decoded provider status-query response (MpesaStkQueryResult from
src/lib/mpesa.ts); `resultCode = none` models the null produced by
`toOptionalNumber` for an absent or non-numeric result code. -/
structure StkQueryResult where
  merchantRequestId : String
  checkoutRequestId : String
  responseCode : String
  responseDescription : String
  resultCode : Option Int
  resultDesc : Option String
  mpesaReceiptNumber : Option String
  raw : Json

/-- The audit fields every poll attempt records (`queryPatch`). -/
def queryPatch (source : String) (q : StkQueryResult) (now : String) : JsonRecord :=
  [("lastStatusQueryAt", .str now),
   ("statusQuerySource", .str source),
   ("queryResponseCode", .str q.responseCode),
   ("queryResponseDescription", .str q.responseDescription),
   ("queryMerchantRequestId", strOrNull q.merchantRequestId),
   ("queryCheckoutRequestId", .str q.checkoutRequestId),
   ("queryResultCode", jsNumJson q.resultCode),
   ("queryResultDesc", optStrJson q.resultDesc),
   ("queryRaw", q.raw)]

/-- The `checkoutRequestId` recorded in `meta.mpesa`, when it is a string
with nonempty trim (the guard both reconcilers apply before polling). -/
def checkoutRequestIdOfMeta (meta : Json) : Option String :=
  match jsLookup (getMpesaMeta meta) "checkoutRequestId" with
  | some (.str s) => if jsTrim s = "" then none else some (jsTrim s)
  | _ => none

/-- The reference chain `mpesaReceiptNumber || payment.transactionRef || checkoutRequestId`:
the reference stored by the poll success transition. -/
def pollReceiptNumber (st : PayState) (query : StkQueryResult) : String :=
  jsOrOptStr query.mpesaReceiptNumber
    (jsOrOptStr st.payment.transactionRef query.checkoutRequestId)

/-- The state committed by the poll success transition. -/
def pollSuccessState (source : String) (st : PayState) (query : StkQueryResult) (now : String) :
    PayState :=
  let patch := jsSpread (queryPatch source query now)
    [("status", .str "SUCCESS"),
     ("resultCode", .num 0),
     ("resultDesc", .str (query.resultDesc.getD "Payment successful")),
     ("mpesaReceiptNumber", optStrJson query.mpesaReceiptNumber),
     ("receiptNumber", .str (pollReceiptNumber st query))]
  ⟨⟨.SUCCESS, some (pollReceiptNumber st query),
    mergeMpesaMeta st.payment.meta patch, st.payment.amount⟩,
   .CONFIRMED⟩

/-- The state committed by the poll failure transition: note
`transactionRef: payment.transactionRef || query.checkoutRequestId`, which
keeps an existing reference and falls back to the session id. -/
def pollFailureState (source : String) (st : PayState) (query : StkQueryResult) (rc : Int)
    (now : String) : PayState :=
  let patch := jsSpread (queryPatch source query now)
    [("status", .str "FAILED"),
     ("resultCode", .num rc),
     ("resultDesc", .str (query.resultDesc.getD "Payment failed"))]
  ⟨⟨.FAILED, some (jsOrOptStr st.payment.transactionRef query.checkoutRequestId),
    mergeMpesaMeta st.payment.meta patch, st.payment.amount⟩,
   .PENDING_PAYMENT⟩

/-- The state written when the poll result code is indeterminate: only the
query audit is persisted; status, reference and the order are untouched. -/
def pollIndeterminateState (source : String) (st : PayState) (query : StkQueryResult)
    (now : String) : PayState :=
  let patch := jsSpread (queryPatch source query now) [("status", .str "PENDING")]
  ⟨⟨st.payment.status, st.payment.transactionRef,
    mergeMpesaMeta st.payment.meta patch, st.payment.amount⟩,
   st.orderStatus⟩

/-- The shared body of both poll reconcilers: given the provider's response
(or a transport error, which is swallowed), apply the success, failure or
indeterminate transition to a PENDING payment with a recorded
checkout-session id; leave every other payment untouched.  `source` is the
`statusQuerySource` audit tag that distinguishes the two call sites. -/
def reconcileCore (source : String) (st : PayState) (q : Except Unit StkQueryResult) (now : String) :
    PayState × Effects :=
  if st.payment.status = .PENDING then
    match checkoutRequestIdOfMeta st.payment.meta with
    | none => (st, Effects.zero)
    | some _ =>
      match q with
      | .error _ => (st, Effects.zero)
      | .ok query =>
        if query.resultCode = some 0 then
          (pollSuccessState source st query now, ⟨1, 1⟩)
        else
          match query.resultCode with
          | some rc => (pollFailureState source st query rc now, Effects.zero)
          | none => (pollIndeterminateState source st query now, Effects.zero)
  else
    (st, Effects.zero)

/-- Model of `reconcilePendingMpesaPayment` from payments.routes.ts (single payment,
audit tag STK_QUERY). -/
def reconcilePendingMpesaPayment (st : PayState) (q : Except Unit StkQueryResult) (now : String) :
    PayState × Effects :=
  reconcileCore "STK_QUERY" st q now

/-- One row of the orders-list view: an order and its payment, as owned by the
requesting user. -/
structure UserPaymentRow where
  orderId : Nat
  provider : PaymentProvider
  pay : PayState

/-- One step of the reconcilePendingMpesaPaymentsForUser loop: only MPESA
rows are in the loop's result set (the others are untouched); the audit tag
is ORDERS_LIST. -/
def reconcileUserRow (r : UserPaymentRow) (q : Except Unit StkQueryResult) (now : String) :
    UserPaymentRow × Effects :=
  if r.provider = .MPESA then
    let s := reconcileCore "ORDERS_LIST" r.pay q now
    (⟨r.orderId, r.provider, s.1⟩, s.2)
  else
    (r, Effects.zero)

/-- Model of `reconcilePendingMpesaPaymentsForUser` from the orders routes variant:
poll every pending M-Pesa payment of the user; `qs i` is the provider's
response for the i-th row. -/
def reconcilePendingMpesaPaymentsForUser (rows : List UserPaymentRow)
    (qs : Nat → Except Unit StkQueryResult) (now : String) : List UserPaymentRow × Effects :=
  let stepped := rows.enum.map (fun p => reconcileUserRow p.2 (qs p.1) now)
  (stepped.map Prod.fst, stepped.foldl (fun a p => a.add p.2) Effects.zero)

/-- The order/payment fields serialized by the orders read endpoints. -/
structure OrderView where
  orderId : Nat
  orderStatus : OrderStatus
  paymentStatus : PaymentStatus
  transactionRef : Option String

def orderView (r : UserPaymentRow) : OrderView :=
  ⟨r.orderId, r.pay.orderStatus, r.pay.payment.status, r.pay.payment.transactionRef⟩

/-- GET / on the orders router (variant): reconcile the user's pending
M-Pesa payments, then serialize the refreshed orders. -/
def ordersListHandler (rows : List UserPaymentRow) (qs : Nat → Except Unit StkQueryResult)
    (now : String) : List UserPaymentRow × List OrderView × Effects :=
  let s := reconcilePendingMpesaPaymentsForUser rows qs now
  (s.1, s.1.map orderView, s.2)

/-- GET /:orderId/status on the orders router (variant): reconcile, then
look the order up in the refreshed state (none models the 404). -/
def orderStatusHandler (rows : List UserPaymentRow) (qs : Nat → Except Unit StkQueryResult)
    (now : String) (orderId : Nat) : List UserPaymentRow × Option OrderView × Effects :=
  let s := reconcilePendingMpesaPaymentsForUser rows qs now
  (s.1, (s.1.find? (fun r => r.orderId = orderId)).map orderView, s.2)

/-- The payment fields serialized by GET /mpesa/:paymentId/status. -/
structure PaymentStatusView where
  status : PaymentStatus
  transactionRef : Option String
  orderStatus : OrderStatus
  meta : Json

/-- GET /mpesa/:paymentId/status from payments.routes.ts: reconcile the
payment, run receipt issuance best-effort, and serialize the refreshed
payment and order. -/
def mpesaPaymentStatusHandler (st : PayState) (q : Except Unit StkQueryResult) (now : String) :
    PayState × PaymentStatusView × Effects :=
  let s := reconcilePendingMpesaPayment st q now
  (s.1, ⟨s.1.payment.status, s.1.payment.transactionRef, s.1.orderStatus, s.1.payment.meta⟩,
   ⟨s.2.emails, s.2.receiptRuns + 1⟩)

/-- Rounding to two decimals, modelling `Number(x.toFixed(2))`. -/
def round2 (q : ℚ) : ℚ :=
  (round (q * 100) : ℤ) / 100

/-- A catalog product as the checkout reads it. -/
structure Product where
  pid : Nat
  name : String
  price : ℚ
  stock : Int

/-- A cart line: requested product and quantity. -/
structure CartItem where
  productId : Nat
  quantity : Int
deriving DecidableEq, Repr

/-- A productStockLog row. -/
structure StockLog where
  productId : Nat
  delta : Int
  reason : String
deriving DecidableEq, Repr

/-- An orderItem row: snapshot of product, quantity, unit price, subtotal. -/
structure OrderItemRow where
  productId : Nat
  quantity : Int
  unitPrice : ℚ
  subtotal : ℚ

/-- An order row as created by checkout. -/
structure OrderRow where
  oid : Nat
  status : OrderStatus
  total : ℚ
  items : List OrderItemRow

/-- The payment row created by checkout. -/
structure CheckoutPaymentRow where
  provider : PaymentProvider
  status : PaymentStatus
  amount : ℚ
  transactionRef : Option String
  meta : Json

/-- The slice of the store the checkout touches. -/
structure ShopState where
  products : List Product
  cart : List CartItem
  orders : List OrderRow
  payments : List CheckoutPaymentRow
  stockLogs : List StockLog

/-- The checkout's payment method selector. -/
inductive PaymentMethod where
  | MPESA
  | CARD
deriving DecidableEq, Repr

def lookupProduct (ps : List Product) (pid : Nat) : Option Product :=
  ps.find? (fun p => p.pid = pid)

/-- Resolve each cart line to its product (`include: product` in the cart
query; the foreign key makes this total on real data). -/
def resolveCart (st : ShopState) : Option (List (CartItem × Product)) :=
  st.cart.mapM (fun it => (lookupProduct st.products it.productId).map (fun p => (it, p)))

/-- The update `stock: \x7b decrement: quantity \x7d` on one product row. -/
def decrementStock (ps : List Product) (pid : Nat) (qty : Int) : List Product :=
  ps.map (fun p => if p.pid = pid then ⟨p.pid, p.name, p.price, p.stock - qty⟩ else p)

/-- The checkout total: `Number(reduce(sum + price * qty).toFixed(2))`. -/
def checkoutTotal (lines : List (CartItem × Product)) : ℚ :=
  round2 (lines.foldl (fun s lp => s + lp.2.price * lp.1.quantity) 0)

/-- The order-item snapshot rows created at checkout (unit price and subtotal
fixed at creation time). -/
def checkoutItems (lines : List (CartItem × Product)) : List OrderItemRow :=
  lines.map (fun lp =>
    OrderItemRow.mk lp.1.productId lp.1.quantity lp.2.price
      (round2 (lp.2.price * lp.1.quantity)))

/-- The Order row created at checkout. -/
def checkoutOrder (method : PaymentMethod) (newOrderId : Nat)
    (lines : List (CartItem × Product)) : OrderRow :=
  ⟨newOrderId, if method = .CARD then .CONFIRMED else .PENDING_PAYMENT,
   checkoutTotal lines, checkoutItems lines⟩

/-- The Payment row created at checkout: immediately SUCCESS with the
synthesized CARD reference for CARD, PENDING with the seeded
`meta.mpesa.requestedPayerName` for M-Pesa. -/
def checkoutPayment (method : PaymentMethod) (shippingName : String)
    (mpesaPayerName : Option String) (cardRef : String)
    (lines : List (CartItem × Product)) : CheckoutPaymentRow :=
  ⟨if method = .CARD then .CARD else .MPESA,
   if method = .CARD then .SUCCESS else .PENDING,
   checkoutTotal lines,
   if method = .CARD then some cardRef else none,
   if method = .MPESA then
     .obj [("mpesa", .obj [("requestedPayerName", .str (mpesaPayerName.getD shippingName))])]
   else
     .null⟩

/-- The stock-log rows appended at checkout: one per line item, with
`delta = -quantity` and the order id as the reason. -/
def checkoutLogs (newOrderId : Nat) (lines : List (CartItem × Product)) : List StockLog :=
  lines.map (fun lp =>
    StockLog.mk lp.1.productId (-lp.1.quantity) ("Order " ++ decStr newOrderId))

/-- The store as committed by the checkout transaction: order and payment
created, every line's stock decremented, the audit logs appended, the cart
cleared. -/
def checkoutCommit (st : ShopState) (method : PaymentMethod) (shippingName : String)
    (mpesaPayerName : Option String) (newOrderId : Nat) (cardRef : String)
    (lines : List (CartItem × Product)) : ShopState :=
  ⟨lines.foldl (fun ps lp => decrementStock ps lp.1.productId lp.1.quantity) st.products,
   [],
   checkoutOrder method newOrderId lines :: st.orders,
   checkoutPayment method shippingName mpesaPayerName cardRef lines :: st.payments,
   st.stockLogs ++ checkoutLogs newOrderId lines⟩

/-- POST /checkout from orders.routes.ts.  `newOrderId` stands for the id the
store assigns to the created order and `cardRef` for the synthesized
`CARD-...` reference.  The empty-cart, insufficient-stock and
missing-payer-name checks throw before the transaction opens, so an error
result leaves the store exactly as it was; the success path commits
`checkoutCommit` as one atomic unit, then for CARD fires the confirmation
email and receipt issuance. -/
def checkout (st : ShopState) (method : PaymentMethod) (shippingName : String)
    (mpesaPayerName : Option String) (newOrderId : Nat) (cardRef : String) :
    Except AppErr (ShopState × Effects) :=
  if st.cart.isEmpty then
    .error ⟨"Cart is empty", 400⟩
  else
    match resolveCart st with
    | none => .error ⟨"Cart references a missing product", 500⟩
    | some lines =>
      match lines.find? (fun lp => decide (lp.2.stock < lp.1.quantity)) with
      | some lp => .error ⟨"Insufficient stock for " ++ lp.2.name, 400⟩
      | none =>
        if method = .MPESA && (jsTrim (mpesaPayerName.getD "") = "") then
          .error ⟨"M-Pesa payer name is required for receipt issuance", 422⟩
        else
          .ok (checkoutCommit st method shippingName mpesaPayerName newOrderId cardRef lines,
               if method = .CARD then ⟨1, 1⟩ else Effects.zero)

/-- The current stock of a product id, when the product exists. -/
def stockOf (ps : List Product) (pid : Nat) : Option Int :=
  (lookupProduct ps pid).map (fun p => p.stock)

/-- The total quantity the cart lines request for one product id. -/
def cartQty (lines : List (CartItem × Product)) (pid : Nat) : Int :=
  (lines.filter (fun lp => lp.1.productId = pid)).foldl (fun s lp => s + lp.1.quantity) 0

/-- The provenance tag stored alongside the receipt's payer name. -/
inductive PayerNameSource where
  | CALLBACK_REGISTERED_NAME
  | CHECKOUT_DECLARED_NAME
  | SHIPPING_NAME
  | ACCOUNT_NAME
  | UNKNOWN
deriving DecidableEq, Repr

/-- One entry of the receipt's itemized snapshot (the shape the service maps
each order item to). -/
structure ReceiptItem where
  productId : Nat
  productName : String
  productSlug : String
  quantity : Int
  unitPrice : ℚ
  subtotal : ℚ

/-- The order data the receipt service reads. -/
structure ReceiptOrder where
  oid : Nat
  shippingName : String
  shippingPhone : String
  total : ℚ
  userFirstName : String
  userLastName : String
  items : List ReceiptItem

/-- A Receipt row. -/
structure ReceiptRow where
  receiptNumber : String
  orderId : Nat
  paymentId : Nat
  payerPhone : Option String
  payerName : Option String
  payerNameSource : PayerNameSource
  subtotal : ℚ
  tax : ℚ
  shippingFee : ℚ
  total : ℚ
  currency : String
  itemsSnapshot : List ReceiptItem
  meta : Json

/-- The store slice receipt issuance works on: the payment with its order,
the zero-or-one receipt attached to it, and the set of receipt numbers
already taken (the receiptNumber uniqueness constraint). -/
structure ReceiptState where
  paymentId : Nat
  provider : PaymentProvider
  status : PaymentStatus
  transactionRef : Option String
  meta : Json
  order : ReceiptOrder
  receipt : Option ReceiptRow
  takenNumbers : List String

/-- A string field of a JSON record (the `typeof v === "string"` reads). -/
def strField (r : JsonRecord) (k : String) : Option String :=
  match jsLookup r k with
  | some (.str s) => some s
  | _ => none

/-- Model of `formatName`: trim the parts, drop the empties, join with single
spaces. -/
def formatName (parts : List (Option String)) : String :=
  jsTrim (String.intercalate " " ((parts.map (fun p => jsTrim (p.getD ""))).filter (fun s => s ≠ "")))

/-- JS `a || b` on nullable strings (empty string is falsy). -/
def jsOrOpt (a b : Option String) : Option String :=
  match a with
  | some s => if s = "" then b else some s
  | none => b

/-- The payer identity triple resolved by the receipt service. -/
structure PayerIdentity where
  payerName : Option String
  payerNameSource : PayerNameSource
  payerPhone : Option String
deriving DecidableEq, Repr

/-- Model of `resolvePayerIdentity` from receipts.service.ts: callback-registered
names, then the declared payer name, then the shipping name, then the
account holder's name; phone from callback, then initiation, then
shipping. -/
def resolvePayerIdentity (st : ReceiptState) : PayerIdentity :=
  let mpesaMeta := getMpesaMeta st.meta
  let callbackRegistered := formatName
    [strField mpesaMeta "callbackFirstName",
     strField mpesaMeta "callbackMiddleName",
     strField mpesaMeta "callbackLastName"]
  let declaredName :=
    match strField mpesaMeta "requestedPayerName" with
    | some s => if jsTrim s = "" then none else some (jsTrim s)
    | none => none
  let accountName := formatName [some st.order.userFirstName, some st.order.userLastName]
  let payerName :=
    jsOrOpt (some callbackRegistered)
      (jsOrOpt declaredName
        (jsOrOpt (some (jsTrim st.order.shippingName))
          (jsOrOpt (some accountName) none)))
  let payerNameSource :=
    if callbackRegistered ≠ "" then PayerNameSource.CALLBACK_REGISTERED_NAME
    else if declaredName.isSome then PayerNameSource.CHECKOUT_DECLARED_NAME
    else if st.order.shippingName ≠ "" then PayerNameSource.SHIPPING_NAME
    else if accountName ≠ "" then PayerNameSource.ACCOUNT_NAME
    else PayerNameSource.UNKNOWN
  let payerPhone :=
    jsOrOpt (strField mpesaMeta "callbackPhoneNumber")
      (jsOrOpt (strField mpesaMeta "phoneNumber")
        (jsOrOpt (some st.order.shippingPhone) none))
  ⟨payerName, payerNameSource, payerPhone⟩

/-- JS `String.prototype.padStart` with a single pad character. -/
def padStart (len : Nat) (c : Char) (s : String) : String :=
  String.mk (List.replicate (len - s.length) c) ++ s

/-- A calendar date, as read off `new Date()` at issuance time. -/
structure DateYMD where
  y : Nat
  m : Nat
  d : Nat
deriving DecidableEq, Repr

/-- The issuance date rendered as YYYYMMDD (`String(yyyy)` and the two
zero-padded components). -/
def dateStamp (d : DateYMD) : String :=
  decStr d.y ++ padStart 2 '0' (decStr d.m) ++ padStart 2 '0' (decStr d.d)

/-- The random suffix: `String(Math.floor(Math.random() * 1_000_000))`
zero-padded to six characters; the draw is always below one million. -/
def genSuffix (rand : Nat) : String :=
  padStart 6 '0' (decStr (rand % 1000000))

/-- Model of `generateReceiptNumber`: RCT- then the date as YYYYMMDD, a hyphen and a
zero-padded 6-digit decimal of the random draw. -/
def generateReceiptNumber (today : DateYMD) (rand : Nat) : String :=
  "RCT-" ++ dateStamp today ++ "-" ++ genSuffix rand

/-- The five candidate receipt numbers the retry loop generates
(`rands i` is the i-th random draw). -/
def receiptCandidates (today : DateYMD) (rands : Nat → Nat) : List String :=
  (List.range 5).map (fun i => generateReceiptNumber today (rands i))

/-- The first candidate number not already taken (the first iteration of the
retry loop whose insert does not hit the P2002 uniqueness violation). -/
def freshReceiptNumber (taken : List String) (today : DateYMD) (rands : Nat → Nat) :
    Option String :=
  (receiptCandidates today rands).find? (fun n => !(taken.contains n))

/-- The Receipt row `tx.receipt.create` inserts. -/
def mkReceiptRow (current : ReceiptState) (identity : PayerIdentity)
    (itemsSnapshot : List ReceiptItem) (subtotal total : ℚ) (now : String) (num : String) :
    ReceiptRow :=
  ⟨num, current.order.oid, current.paymentId,
   identity.payerPhone, identity.payerName, identity.payerNameSource,
   subtotal, 0, 0, total, "KES", itemsSnapshot,
   .obj [("generatedAt", .str now),
         ("paymentProvider", .str (if current.provider = .MPESA then "MPESA" else "CARD")),
         ("paymentTransactionRef", optStrJson current.transactionRef)]⟩

/-- The transaction body of `ensureReceiptForSuccessfulPayment`: re-check the
receipt and the status on the transaction-time row, then insert with up to
five fresh receipt numbers, converging on the already-inserted row when one
exists and failing with a 500 when every candidate number collides. -/
def issueReceiptTx (current : ReceiptState) (identity : PayerIdentity)
    (itemsSnapshot : List ReceiptItem) (subtotal total : ℚ) (today : DateYMD) (now : String)
    (rands : Nat → Nat) : Except AppErr (ReceiptState × ReceiptRow) :=
  match current.receipt with
  | some r => .ok (current, r)
  | none =>
    if current.status = .SUCCESS then
      match freshReceiptNumber current.takenNumbers today rands with
      | some num =>
        let r := mkReceiptRow current identity itemsSnapshot subtotal total now num
        .ok (⟨current.paymentId, current.provider, current.status, current.transactionRef,
              current.meta, current.order, some r, num :: current.takenNumbers⟩, r)
      | none => .error ⟨"Unable to generate unique receipt number", 500⟩
    else
      .error ⟨"Cannot issue receipt before successful payment", 400⟩

/-- The subtotal the service computes: the item subtotals summed and rounded
to two decimals. -/
def receiptSubtotal (st : ReceiptState) : ℚ :=
  round2 (st.order.items.foldl (fun s it => s + it.subtotal) 0)

/-- The receipt row issuance creates for `st` when `num` is the receipt
number that won the retry loop. -/
def issuedReceipt (st : ReceiptState) (now : String) (num : String) : ReceiptRow :=
  mkReceiptRow st (resolvePayerIdentity st) st.order.items (receiptSubtotal st) st.order.total now num

/-- The store after issuance created `issuedReceipt st now num`. -/
def issuedState (st : ReceiptState) (now : String) (num : String) : ReceiptState :=
  ⟨st.paymentId, st.provider, st.status, st.transactionRef, st.meta, st.order,
   some (issuedReceipt st now num), num :: st.takenNumbers⟩

/-- Model of `ensureReceiptForSuccessfulPayment` from receipts.service.ts.  A non-SUCCESS
payment yields `none` with no receipt and no error; an existing receipt is
returned unchanged; otherwise the snapshot and identity are computed and the
insert transaction above runs (its error aborts with no state change). -/
def ensureReceiptForSuccessfulPayment (st : ReceiptState) (today : DateYMD) (now : String)
    (rands : Nat → Nat) : Except AppErr (ReceiptState × Option ReceiptRow) :=
  if st.status = .SUCCESS then
    match st.receipt with
    | some r => .ok (st, some r)
    | none =>
      match issueReceiptTx st (resolvePayerIdentity st) st.order.items (receiptSubtotal st)
          st.order.total today now rands with
      | .ok s => .ok (s.1, some s.2)
      | .error e => .error e
  else
    .ok (st, none)

/-- A meta value holding one prior poll audit entry under `mpesa` and an
unrelated top-level key. -/
def exMetaWithHistory : Json :=
  Json.obj [("mpesa", Json.obj [("queryResultCode", Json.num 1), ("phoneNumber", Json.str "254712345678")]),
            ("note", Json.str "kept")]

/-- A later reconciliation patch reusing the `queryResultCode` key. -/
def exRepeatPatch : JsonRecord := [("queryResultCode", Json.num 0)]

/-- A SUCCESS payment with its confirmed order, reference and audit meta. -/
def exSuccessPayState : PayState :=
  ⟨⟨.SUCCESS, some "QDJ7RT61SV",
    Json.obj [("mpesa", Json.obj [("checkoutRequestId", Json.str "ws_CO_1")])], 100⟩,
   .CONFIRMED⟩

/-- The metadata items of the example success callback. -/
def exSuccessItems : Json :=
  Json.arr
    [Json.obj [("Name", Json.str "MpesaReceiptNumber"), ("Value", Json.str "QDJ7RT61SV")],
     Json.obj [("Name", Json.str "Amount"), ("Value", Json.num 100)]]

/-- The stkCallback envelope of the example success callback. -/
def exSuccessStk : Json :=
  Json.obj
    [("ResultCode", Json.num 0),
     ("CheckoutRequestID", Json.str "ws_CO_1"),
     ("MerchantRequestID", Json.str "mr-1"),
     ("ResultDesc", Json.str "The service request is processed successfully."),
     ("CallbackMetadata", Json.obj [("Item", exSuccessItems)])]

/-- A well-formed success callback body for the same payment. -/
def exSuccessBody : Json :=
  Json.obj [("Body", Json.obj [("stkCallback", exSuccessStk)])]

/-- The outcome of redelivering the success callback to the already
successful payment. -/
def exReplayOutcome : CallbackOutcome :=
  ⟨exSuccessPayState, some 0, Effects.zero⟩

/-- A PENDING M-Pesa payment with a recorded checkout-session id and no
transaction reference yet. -/
def exPendingPayState : PayState :=
  ⟨⟨.PENDING, none,
    Json.obj [("mpesa", Json.obj [("checkoutRequestId", Json.str "ws_CO_7")])], 250⟩,
   .PENDING_PAYMENT⟩

/-- A callback whose envelope is present but carries no ResultCode at all. -/
def exNoResultCodeBody : Json :=
  Json.obj [("Body", Json.obj [("stkCallback", Json.obj [("ResultDesc", Json.str "processing")])])]

/-- An indeterminate provider status-query response: accepted for processing,
no result code yet. -/
def exIndetQuery : StkQueryResult :=
  ⟨"mr-7", "ws_CO_7", "0", "The service request has been accepted successfully",
   none, none, none, Json.obj [("ResponseCode", Json.str "0")]⟩

/-- A success callback carrying neither a receipt number nor a
checkout-session id. -/
def exBareSuccessBody : Json :=
  Json.obj [("Body", Json.obj [("stkCallback", Json.obj [("ResultCode", Json.num 0)])])]

/-- The outcome of the example success callback on the pending payment. -/
def exSuccessOutcome : CallbackOutcome :=
  ⟨successCallbackState exPendingPayState exSuccessBody "2026-02-28T00:00:02Z", some 0, ⟨1, 1⟩⟩

/-- A PENDING payment that already carries a transaction reference. -/
def exPendingWithRefState : PayState :=
  ⟨⟨.PENDING, some "OLDREF",
    Json.obj [("mpesa", Json.obj [("checkoutRequestId", Json.str "ws_CO_9")])], 99⟩,
   .PENDING_PAYMENT⟩

/-- A failure callback for that payment carrying a checkout-session id. -/
def exFailureBody : Json :=
  Json.obj [("Body", Json.obj [("stkCallback", Json.obj
    [("ResultCode", Json.num 1032),
     ("CheckoutRequestID", Json.str "ws_CO_9"),
     ("ResultDesc", Json.str "Request cancelled by user")])])]

/-- The outcome of the example failure callback on the payment that already
had a reference. -/
def exFailureOutcome : CallbackOutcome :=
  ⟨failureCallbackState exPendingWithRefState exFailureBody "2026-02-28T00:00:03Z",
   some 1032, Effects.zero⟩

/-- A failing provider status-query response for the pending payment. -/
def exFailQuery : StkQueryResult :=
  ⟨"mr-7", "ws_CO_7", "0", "The service request has been accepted successfully",
   some 1032, some "Request cancelled by user", none, Json.null⟩

/-- The order behind the example receipt issuance: two line items totalling
250 KES. -/
def exReceiptOrder : ReceiptOrder :=
  ⟨501, "Jane Buyer", "254712345678", 250, "Jane", "Buyer",
   [⟨11, "Mug", "mug", 2, 100, 200⟩, ⟨12, "Pen", "pen", 1, 50, 50⟩]⟩

/-- A successful M-Pesa payment for that order, no receipt yet, no receipt
numbers taken. -/
def exReceiptSt : ReceiptState :=
  ⟨9001, .MPESA, .SUCCESS, some "QDJ7RT61SV",
   Json.obj [("mpesa", Json.obj [("phoneNumber", Json.str "254712345678"),
                                 ("requestedPayerName", Json.str "Jane B")])],
   exReceiptOrder, none, []⟩

/-- A fixed random stream for the example issuance. -/
def exRands : Nat → Nat := fun _ => 123456

/-- The example issuance date. -/
def exToday : DateYMD := ⟨2026, 2, 28⟩

/-- The catalog for the example checkouts. -/
def exProducts : List Product := [⟨11, "Mug", 100, 5⟩, ⟨12, "Pen", 50, 3⟩]

/-- A cart whose quantities fit the stock. -/
def exShopOk : ShopState := ⟨exProducts, [⟨11, 2⟩, ⟨12, 1⟩], [], [], []⟩

/-- A cart requesting more mugs than are in stock. -/
def exShopBad : ShopState := ⟨exProducts, [⟨11, 7⟩], [], [], []⟩

/-- The resolved lines of the well-stocked cart. -/
def exOkLines : List (CartItem × Product) :=
  [(⟨11, 2⟩, ⟨11, "Mug", 100, 5⟩), (⟨12, 1⟩, ⟨12, "Pen", 50, 3⟩)]

/-- A provider status-query response reporting success with receipt ABC123
(the scenario of the spec's last testable property). -/
def exSuccessQuery : StkQueryResult :=
  ⟨"mr-7", "ws_CO_7", "0", "The service request has been accepted successfully",
   some 0, some "The service request is processed successfully.", some "ABC123", Json.null⟩

/-- The single-row orders list of the pending example payment. -/
def exUserRows : List UserPaymentRow := [⟨501, .MPESA, exPendingPayState⟩]

theorem jsLookup_nil (k : String) : jsLookup [] k = none := rfl

theorem jsLookup_cons (p : String × Json) (t : JsonRecord) (k : String) :
    jsLookup (p :: t) k = if p.1 = k then some p.2 else jsLookup t k := by
  by_cases h : p.1 = k <;> simp [jsLookup, List.find?_cons, h]

theorem jsLookup_append (a b : JsonRecord) (k : String) :
    jsLookup (a ++ b) k =
      match jsLookup a k with
      | some v => some v
      | none => jsLookup b k := by
  induction a with
  | nil => simp [jsLookup_nil]
  | cons p t ih =>
    rw [List.cons_append, jsLookup_cons, jsLookup_cons]
    by_cases h : p.1 = k <;> simp [h, ih]

theorem jsLookup_filter (a : JsonRecord) (f : String × Json → Bool) (k : String)
    (h : ∀ p ∈ a, p.1 = k → f p = true) :
    jsLookup (a.filter f) k = jsLookup a k := by
  induction a with
  | nil => rfl
  | cons p t ih =>
    rw [jsLookup_cons]
    by_cases hp : p.1 = k
    · rw [List.filter_cons_of_pos (h p (List.mem_cons_self p t) hp), jsLookup_cons]
      simp [hp]
    · cases hf : f p with
      | true =>
        rw [List.filter_cons_of_pos hf, jsLookup_cons]
        simp only [hp, if_false]
        exact ih (fun q hq hk => h q (List.mem_cons_of_mem p hq) hk)
      | false =>
        rw [List.filter_cons_of_neg (by simp [hf])]
        simp only [hp, if_false]
        exact ih (fun q hq hk => h q (List.mem_cons_of_mem p hq) hk)

theorem jsLookup_jsSpread (a b : JsonRecord) (k : String) :
    jsLookup (jsSpread a b) k =
      match jsLookup b k with
      | some v => some v
      | none => jsLookup a k := by
  unfold jsSpread
  rw [jsLookup_append]
  cases hb : jsLookup b k with
  | some v => rfl
  | none =>
    simp only []
    exact jsLookup_filter a _ k (fun p _ hk => by rw [hk, hb]; rfl)

theorem mergeMpesaMeta_top (cur : Json) (patch : JsonRecord) (k : String) (hk : k ≠ "mpesa") :
    jsLookup (toJsonRecord (mergeMpesaMeta cur patch)) k = jsLookup (toJsonRecord cur) k := by
  show jsLookup (jsSpread (toJsonRecord cur) _) k = _
  rw [jsLookup_jsSpread, jsLookup_cons]
  have hne : ¬("mpesa" = k) := fun h => hk h.symm
  simp [hne, jsLookup_nil]

theorem mergeMpesaMeta_mpesa (cur : Json) (patch : JsonRecord) :
    getMpesaMeta (mergeMpesaMeta cur patch) = jsSpread (getMpesaMeta cur) patch := by
  show toJsonRecord ((jsLookup (jsSpread (toJsonRecord cur) _) "mpesa").getD .null) = _
  rw [jsLookup_jsSpread, jsLookup_cons]
  rfl

theorem mergeMpesaMeta_mpesa_patched (cur : Json) (patch : JsonRecord) (k : String) (v : Json)
    (h : jsLookup patch k = some v) :
    jsLookup (getMpesaMeta (mergeMpesaMeta cur patch)) k = some v := by
  rw [mergeMpesaMeta_mpesa, jsLookup_jsSpread, h]

theorem mergeMpesaMeta_mpesa_frame (cur : Json) (patch : JsonRecord) (k : String)
    (h : jsLookup patch k = none) :
    jsLookup (getMpesaMeta (mergeMpesaMeta cur patch)) k = jsLookup (getMpesaMeta cur) k := by
  rw [mergeMpesaMeta_mpesa, jsLookup_jsSpread, h]

theorem decDigitsAux_length_le (k : Nat) :
    ∀ fuel n : Nat, 0 < k → n < 10 ^ k → (decDigitsAux fuel n).length ≤ k := by
  induction k with
  | zero => intro fuel n hk _; omega
  | succ k ih =>
    intro fuel n _ hn
    cases fuel with
    | zero => simp [decDigitsAux]
    | succ fuel =>
      simp only [decDigitsAux]
      by_cases h : n < 10
      · rw [if_pos h]
        simp
      · rw [if_neg h]
        have hk : 0 < k := by
          rcases Nat.eq_zero_or_pos k with h0 | h0
          · subst h0; simp at hn; omega
          · exact h0
        have hdiv : n / 10 < 10 ^ k := by
          apply Nat.div_lt_of_lt_mul
          calc n < 10 ^ (k + 1) := hn
            _ = 10 * 10 ^ k := by ring
        have := ih fuel (n / 10) hk hdiv
        simp [List.length_append]
        omega

theorem decDigits_length_le (k : Nat) : ∀ n : Nat, 0 < k → n < 10 ^ k → (decDigits n).length ≤ k :=
  fun n hk hn => decDigitsAux_length_le k (n + 1) n hk hn

theorem decDigitsAux_digits (fuel : Nat) :
    ∀ n : Nat, ∀ c ∈ decDigitsAux fuel n, c.isDigit = true := by
  induction fuel with
  | zero => intro n c hc; simp [decDigitsAux] at hc
  | succ fuel ih =>
    intro n c hc
    simp only [decDigitsAux] at hc
    by_cases h : n < 10
    · rw [if_pos h] at hc
      simp at hc
      subst hc
      interval_cases n <;> decide
    · rw [if_neg h] at hc
      rcases List.mem_append.mp hc with h1 | h2
      · exact ih (n / 10) c h1
      · simp at h2
        subst h2
        have hm : n % 10 < 10 := Nat.mod_lt _ (by omega)
        generalize n % 10 = m at hm ⊢
        interval_cases m <;> decide

theorem decDigits_digits (n : Nat) : ∀ c ∈ decDigits n, c.isDigit = true :=
  decDigitsAux_digits (n + 1) n

theorem padStart_data (len : Nat) (c : Char) (s : String) :
    (padStart len c s).data = List.replicate (len - s.length) c ++ s.data := by
  unfold padStart
  rw [String.data_append]

theorem padStart_length (len : Nat) (c : Char) (s : String) (h : s.length ≤ len) :
    (padStart len c s).length = len := by
  show (padStart len c s).data.length = len
  rw [padStart_data, List.length_append, List.length_replicate]
  have : s.data.length = s.length := rfl
  omega

theorem genSuffix_length (rand : Nat) : (genSuffix rand).length = 6 := by
  unfold genSuffix
  apply padStart_length
  show (decDigits (rand % 1000000)).length ≤ 6
  apply decDigits_length_le 6 _ (by omega)
  have := Nat.mod_lt rand (show 0 < 1000000 by omega)
  omega

theorem genSuffix_digits (rand : Nat) : ∀ c ∈ (genSuffix rand).data, c.isDigit = true := by
  unfold genSuffix
  rw [padStart_data]
  intro c hc
  rcases List.mem_append.mp hc with h1 | h2
  · rw [List.eq_of_mem_replicate h1]
    decide
  · exact decDigits_digits _ c h2

/-- C9: phone normalization maps "0712345678" to "254712345678", leaves
"254712345678" unchanged, maps "712345678" to "254712345678", rejects
"+1234" with a 422 validation error, and in general strips non-digit
characters and accepts exactly the international, leading-zero local and
bare subscriber forms, rejecting everything else. -/
theorem normalizeKenyanPhoneNumber_spec :
    normalizeKenyanPhoneNumber "0712345678" = .ok "254712345678" ∧
    normalizeKenyanPhoneNumber "254712345678" = .ok "254712345678" ∧
    normalizeKenyanPhoneNumber "712345678" = .ok "254712345678" ∧
    normalizeKenyanPhoneNumber "+1234" =
      .error ⟨"Invalid Kenyan phone number format for M-Pesa", 422⟩ ∧
    ∀ s : String,
      normalizeKenyanPhoneNumber s =
        match acceptedKenyanForm (stripNonDigits s) with
        | some r => .ok r
        | none => .error ⟨"Invalid Kenyan phone number format for M-Pesa", 422⟩ := by
  refine ⟨rfl, rfl, rfl, rfl, ?_⟩
  intro s
  unfold normalizeKenyanPhoneNumber acceptedKenyanForm
  split_ifs <;> rfl

/-- C8 counterexample: the merge does not preserve all previously recorded
history in `meta.mpesa` — a patch reusing a key overwrites the prior value,
so the recorded `queryResultCode` of 1 is replaced by 0 by the next
reconciliation attempt. -/
theorem mergeMpesaMeta_overwrite_counterexample :
    jsLookup (getMpesaMeta exMetaWithHistory) "queryResultCode" = some (Json.num 1) ∧
    jsLookup (getMpesaMeta (mergeMpesaMeta exMetaWithHistory exRepeatPatch)) "queryResultCode" =
      some (Json.num 0) ∧
    jsLookup (getMpesaMeta (mergeMpesaMeta exMetaWithHistory exRepeatPatch)) "queryResultCode" ≠
      jsLookup (getMpesaMeta exMetaWithHistory) "queryResultCode" := by
  refine ⟨rfl, rfl, ?_⟩
  intro h
  rw [show jsLookup (getMpesaMeta (mergeMpesaMeta exMetaWithHistory exRepeatPatch)) "queryResultCode"
      = some (Json.num 0) from rfl,
    show jsLookup (getMpesaMeta exMetaWithHistory) "queryResultCode" = some (Json.num 1) from rfl] at h
  injection h with h1
  injection h1 with h2
  exact absurd h2 (by decide)

/-- C8 (amended): the merge writes the patch's keys into the existing
`meta.mpesa` namespace rather than replacing the namespace — every `mpesa`
key not present in the patch and every top-level meta key other than
`mpesa` are preserved; keys present in the patch take the patch's value. -/
theorem mergeMpesaMeta_frame_properties (cur : Json) (patch : JsonRecord) :
    (∀ k, k ≠ "mpesa" →
      jsLookup (toJsonRecord (mergeMpesaMeta cur patch)) k = jsLookup (toJsonRecord cur) k) ∧
    (∀ k v, jsLookup patch k = some v →
      jsLookup (getMpesaMeta (mergeMpesaMeta cur patch)) k = some v) ∧
    (∀ k, jsLookup patch k = none →
      jsLookup (getMpesaMeta (mergeMpesaMeta cur patch)) k = jsLookup (getMpesaMeta cur) k) := by
  exact ⟨fun k hk => mergeMpesaMeta_top cur patch k hk,
         fun k v h => mergeMpesaMeta_mpesa_patched cur patch k v h,
         fun k h => mergeMpesaMeta_mpesa_frame cur patch k h⟩

/-- Witness for the merge frame properties on concrete data: the unrelated
top-level key, the untouched prior `phoneNumber` entry and the patched
`queryResultCode` entry all read back as the frame theorem states. -/
theorem mergeMpesaMeta_frame_properties_witness :
    jsLookup (toJsonRecord (mergeMpesaMeta exMetaWithHistory exRepeatPatch)) "note" =
      jsLookup (toJsonRecord exMetaWithHistory) "note" ∧
    jsLookup (getMpesaMeta (mergeMpesaMeta exMetaWithHistory exRepeatPatch)) "queryResultCode" =
      some (Json.num 0) ∧
    jsLookup (getMpesaMeta (mergeMpesaMeta exMetaWithHistory exRepeatPatch)) "phoneNumber" =
      jsLookup (getMpesaMeta exMetaWithHistory) "phoneNumber" :=
  ⟨(mergeMpesaMeta_frame_properties exMetaWithHistory exRepeatPatch).1 "note" (by decide),
   (mergeMpesaMeta_frame_properties exMetaWithHistory exRepeatPatch).2.1 "queryResultCode"
     (Json.num 0) rfl,
   (mergeMpesaMeta_frame_properties exMetaWithHistory exRepeatPatch).2.2 "phoneNumber" rfl⟩

/-- C1: once a Payment is SUCCESS, every subsequent callback delivery —
success code, failure code or malformed envelope — and every subsequent poll
reconciliation leaves the payment row (status, transactionRef, meta) and the
order status unchanged and fires no confirmation email and no receipt run;
in particular, replaying the identical success callback a second time is a
no-op. -/
theorem success_payment_is_terminal (st : PayState) (h : st.payment.status = .SUCCESS) :
    (∀ body now out, mpesaCallback st body now = .ok out →
      out.state = st ∧ out.effects = Effects.zero) ∧
    (∀ q now, reconcilePendingMpesaPayment st q now = (st, Effects.zero)) ∧
    (∀ st0 body now out, mpesaCallback st0 body now = .ok out → out.resultCode = some 0 →
      mpesaCallback out.state body now = .ok ⟨out.state, some 0, Effects.zero⟩) := by
  refine ⟨?_, ?_, ?_⟩
  · intro body now out hout
    unfold mpesaCallback at hout
    by_cases h1 : jsFalsy (cbStk body) = true
    · rw [if_pos h1] at hout
      exact Except.noConfusion hout
    · rw [if_neg h1] at hout
      by_cases h2 : cbResultCode body = some 0
      · rw [if_pos h2, if_pos h] at hout
        injection hout with hout
        exact ⟨congrArg CallbackOutcome.state hout.symm, congrArg CallbackOutcome.effects hout.symm⟩
      · rw [if_neg h2, if_pos h] at hout
        injection hout with hout
        exact ⟨congrArg CallbackOutcome.state hout.symm, congrArg CallbackOutcome.effects hout.symm⟩
  · intro q now
    unfold reconcilePendingMpesaPayment reconcileCore
    rw [h]
    simp
  · intro st0 body now out hout hrc
    unfold mpesaCallback at hout ⊢
    by_cases h1 : jsFalsy (cbStk body) = true
    · rw [if_pos h1] at hout
      exact Except.noConfusion hout
    · rw [if_neg h1] at hout
      by_cases h2 : cbResultCode body = some 0
      · rw [if_pos h2] at hout
        by_cases h3 : st0.payment.status = .SUCCESS
        · rw [if_pos h3] at hout
          injection hout with hout
          subst hout
          rw [if_neg h1, if_pos h2, if_pos h3, h2]
        · rw [if_neg h3] at hout
          injection hout with hout
          subst hout
          rw [if_neg h1, if_pos h2,
            if_pos (show (successCallbackState st0 body now).payment.status = .SUCCESS from rfl), h2]
      · rw [if_neg h2] at hout
        by_cases h3 : st0.payment.status = .SUCCESS
        · rw [if_pos h3] at hout
          injection hout with hout
          subst hout
          exact absurd hrc h2
        · rw [if_neg h3] at hout
          injection hout with hout
          subst hout
          exact absurd hrc h2

/-- Witness for C1 on concrete data: redelivering the success callback to a
SUCCESS payment changes nothing and fires nothing, and a poll reconciliation
of the same payment is the identity. -/
theorem success_payment_is_terminal_witness :
    exReplayOutcome.state = exSuccessPayState ∧
    exReplayOutcome.effects = Effects.zero ∧
    reconcilePendingMpesaPayment exSuccessPayState (Except.error ()) "2026-02-28T00:00:00Z" =
      (exSuccessPayState, Effects.zero) :=
  ⟨((success_payment_is_terminal exSuccessPayState rfl).1 exSuccessBody
      "2026-02-28T00:00:00Z" exReplayOutcome rfl).1,
   ((success_payment_is_terminal exSuccessPayState rfl).1 exSuccessBody
      "2026-02-28T00:00:00Z" exReplayOutcome rfl).2,
   (success_payment_is_terminal exSuccessPayState rfl).2.1 (Except.error ())
      "2026-02-28T00:00:00Z"⟩

/-- C2 counterexample: a delivered callback whose result code is absent does
not leave the PENDING payment untouched — the handler defaults the missing
code to -1 and moves the payment to FAILED. -/
theorem pending_failed_by_absent_callback_code :
    exPendingPayState.payment.status = .PENDING ∧
    (mpesaCallback exPendingPayState exNoResultCodeBody "2026-02-28T00:00:01Z").map
      (fun o => o.state.payment.status) = .ok .FAILED ∧
    PaymentStatus.FAILED ≠ PaymentStatus.PENDING :=
  ⟨rfl, rfl, by decide⟩

/-- C2 (amended): on the poll path only an explicit non-zero numeric result
code can move a PENDING payment to FAILED — a transport error changes
nothing, and an absent/indeterminate poll result code leaves status,
reference and order untouched.  On the callback path, however, an absent
result code defaults to -1 and is treated as failure, so a delivered
callback without a result code moves a PENDING payment to FAILED. -/
theorem pending_resolution_requires_explicit_code :
    (∀ st now, reconcilePendingMpesaPayment st (.error ()) now = (st, Effects.zero)) ∧
    (∀ st q now, st.payment.status = .PENDING → q.resultCode = none →
      (reconcilePendingMpesaPayment st (.ok q) now).1.payment.status = .PENDING ∧
      (reconcilePendingMpesaPayment st (.ok q) now).1.payment.transactionRef =
        st.payment.transactionRef ∧
      (reconcilePendingMpesaPayment st (.ok q) now).1.orderStatus = st.orderStatus) ∧
    (∀ st q now, st.payment.status = .PENDING →
      (reconcilePendingMpesaPayment st (.ok q) now).1.payment.status = .FAILED →
      q.resultCode ≠ none ∧ q.resultCode ≠ some 0) ∧
    (∀ st body now, st.payment.status ≠ .SUCCESS → jsFalsy (cbStk body) = false →
      jsGet (cbStk body) "ResultCode" = .null →
      (mpesaCallback st body now).map (fun o => o.state.payment.status) = .ok .FAILED) := by
  refine ⟨?_, ?_, ?_, ?_⟩
  · intro st now
    unfold reconcilePendingMpesaPayment reconcileCore
    by_cases hp : st.payment.status = .PENDING
    · rw [if_pos hp]
      cases checkoutRequestIdOfMeta st.payment.meta <;> rfl
    · rw [if_neg hp]
  · intro st q now hp hrc
    unfold reconcilePendingMpesaPayment reconcileCore
    rw [if_pos hp]
    cases hcid : checkoutRequestIdOfMeta st.payment.meta with
    | none => exact ⟨hp, rfl, rfl⟩
    | some c =>
      dsimp only
      rw [hrc]
      simp only [reduceCtorEq, if_false]
      exact ⟨hp, rfl, rfl⟩
  · intro st q now hp hfail
    unfold reconcilePendingMpesaPayment reconcileCore at hfail
    rw [if_pos hp] at hfail
    cases hcid : checkoutRequestIdOfMeta st.payment.meta with
    | none =>
      rw [hcid] at hfail
      rw [hp] at hfail
      exact PaymentStatus.noConfusion hfail
    | some c =>
      rw [hcid] at hfail
      dsimp only at hfail
      by_cases h0 : q.resultCode = some 0
      · rw [if_pos h0] at hfail
        exact PaymentStatus.noConfusion hfail
      · rw [if_neg h0] at hfail
        cases hq : q.resultCode with
        | none =>
          rw [hq] at hfail
          rw [show (pollIndeterminateState "STK_QUERY" st q now).payment.status
              = st.payment.status from rfl, hp] at hfail
          exact PaymentStatus.noConfusion hfail
        | some rc =>
          exact ⟨by simp, hq ▸ h0⟩
  · intro st body now hns hfal hnull
    have hrc : cbResultCode body = some (-1) := by
      unfold cbResultCode
      rw [hnull]
      rfl
    unfold mpesaCallback
    rw [if_neg (by rw [hfal]; exact Bool.false_ne_true),
      if_neg (by rw [hrc]; decide), if_neg hns]
    rfl

/-- Witness for the amended C2 on concrete data: a transport error and an
indeterminate poll both leave the PENDING payment PENDING, while the
callback with an absent result code fails it. -/
theorem pending_resolution_requires_explicit_code_witness :
    reconcilePendingMpesaPayment exPendingPayState (.error ()) "t" =
      (exPendingPayState, Effects.zero) ∧
    (reconcilePendingMpesaPayment exPendingPayState (.ok exIndetQuery) "t").1.payment.status =
      .PENDING ∧
    (mpesaCallback exPendingPayState exNoResultCodeBody "t").map
      (fun o => o.state.payment.status) = .ok .FAILED :=
  ⟨pending_resolution_requires_explicit_code.1 exPendingPayState "t",
   (pending_resolution_requires_explicit_code.2.1 exPendingPayState exIndetQuery "t" rfl rfl).1,
   pending_resolution_requires_explicit_code.2.2.2 exPendingPayState exNoResultCodeBody "t"
     (by decide) rfl rfl⟩

/-- C3 counterexample: a success callback with no MpesaReceiptNumber item and
no CheckoutRequestID leaves the payment SUCCESS with an empty
transactionRef, so transactionRef is not never-empty on success. -/
theorem success_empty_transactionRef_counterexample :
    (mpesaCallback exPendingPayState exBareSuccessBody "2026-02-28T00:00:02Z").map
      (fun o => (o.state.payment.status, o.state.payment.transactionRef)) =
      .ok (.SUCCESS, some "") ∧
    ("" : String).length = 0 :=
  ⟨rfl, rfl⟩

/-- C3 (amended): a success-marker callback on a not-yet-successful payment
atomically sets the payment SUCCESS, stores the provider receipt number as
transactionRef — falling back to the checkout-session id when the metadata
item is absent, so transactionRef is nonempty exactly when the stored string
is — merges the audit snapshot (timestamp, raw body, decoded payer fields)
into meta.mpesa preserving other top-level keys, confirms the order, and
fires one confirmation email and one receipt run. -/
theorem success_callback_transition (st : PayState) (body : Json) (now : String)
    (out : CallbackOutcome)
    (hout : mpesaCallback st body now = .ok out)
    (hns : st.payment.status ≠ .SUCCESS)
    (hrc : cbResultCode body = some 0) :
    out.state.payment.status = .SUCCESS ∧
    out.state.orderStatus = .CONFIRMED ∧
    out.state.payment.transactionRef = some (cbReceiptNumber body) ∧
    (findCallbackValue (callbackItems (cbStk body)) "MpesaReceiptNumber" = .null →
      cbReceiptNumber body = cbCheckoutRequestId body) ∧
    (∀ s, findCallbackValue (callbackItems (cbStk body)) "MpesaReceiptNumber" = .str s →
      cbReceiptNumber body = s) ∧
    out.state.payment.meta = mergeMpesaMeta st.payment.meta (successCallbackPatch st body now) ∧
    jsLookup (getMpesaMeta out.state.payment.meta) "rawCallback" = some body ∧
    jsLookup (getMpesaMeta out.state.payment.meta) "callbackReceivedAt" = some (.str now) ∧
    (∀ k, k ≠ "mpesa" → jsLookup (toJsonRecord out.state.payment.meta) k =
      jsLookup (toJsonRecord st.payment.meta) k) ∧
    out.effects = ⟨1, 1⟩ ∧
    (cbReceiptNumber body ≠ "" → out.state.payment.transactionRef ≠ some "") := by
  unfold mpesaCallback at hout
  by_cases h1 : jsFalsy (cbStk body) = true
  · rw [if_pos h1] at hout
    exact Except.noConfusion hout
  · rw [if_neg h1, if_pos hrc, if_neg hns] at hout
    injection hout with hout
    subst hout
    refine ⟨rfl, rfl, rfl, ?_, ?_, rfl, ?_, ?_, ?_, rfl, ?_⟩
    · intro h
      unfold cbReceiptNumber
      rw [h]
      rfl
    · intro s h
      unfold cbReceiptNumber
      rw [h]
      rfl
    · exact mergeMpesaMeta_mpesa_patched st.payment.meta _ "rawCallback" body rfl
    · exact mergeMpesaMeta_mpesa_patched st.payment.meta _ "callbackReceivedAt" (.str now) rfl
    · intro k hk
      exact mergeMpesaMeta_top st.payment.meta _ k hk
    · intro hne hcontra
      injection hcontra with hcontra
      exact hne hcontra

/-- Witness for the amended C3 on concrete data: the success callback
confirms the order, stores the receipt number QDJ7RT61SV and fires one email
and one receipt run. -/
theorem success_callback_transition_witness :
    exSuccessOutcome.state.payment.status = .SUCCESS ∧
    exSuccessOutcome.state.orderStatus = .CONFIRMED ∧
    exSuccessOutcome.state.payment.transactionRef = some (cbReceiptNumber exSuccessBody) ∧
    exSuccessOutcome.effects = ⟨1, 1⟩ :=
  ⟨(success_callback_transition exPendingPayState exSuccessBody "2026-02-28T00:00:02Z"
      exSuccessOutcome rfl (by decide) rfl).1,
   (success_callback_transition exPendingPayState exSuccessBody "2026-02-28T00:00:02Z"
      exSuccessOutcome rfl (by decide) rfl).2.1,
   (success_callback_transition exPendingPayState exSuccessBody "2026-02-28T00:00:02Z"
      exSuccessOutcome rfl (by decide) rfl).2.2.1,
   (success_callback_transition exPendingPayState exSuccessBody "2026-02-28T00:00:02Z"
      exSuccessOutcome rfl (by decide) rfl).2.2.2.2.2.2.2.2.2.1⟩

/-- C4 counterexample: the callback failure branch does not preserve an
existing transactionRef — `checkoutRequestId || payment.transactionRef`
overwrites OLDREF with the session id. -/
theorem failure_callback_overwrites_transactionRef :
    exPendingWithRefState.payment.transactionRef = some "OLDREF" ∧
    (mpesaCallback exPendingWithRefState exFailureBody "2026-02-28T00:00:03Z").map
      (fun o => o.state.payment.transactionRef) = .ok (some "ws_CO_9") ∧
    (some "ws_CO_9" : Option String) ≠ some "OLDREF" :=
  ⟨rfl, rfl, by decide⟩

/-- C4 (amended): a failure callback on a not-yet-successful payment
atomically fails the payment, merges the failure audit into meta and reverts
the order to PENDING_PAYMENT, but stores the checkout-session id as
transactionRef whenever that id is nonempty, overwriting an existing
reference, and keeps the existing reference only when the session id is
empty; the poll failure path, by contrast, keeps an existing nonempty
reference and falls back to the session id only when none exists. -/
theorem failure_transition_effects :
    (∀ st body now out, mpesaCallback st body now = .ok out →
      st.payment.status ≠ .SUCCESS → cbResultCode body ≠ some 0 →
      out.state.payment.status = .FAILED ∧
      out.state.orderStatus = .PENDING_PAYMENT ∧
      out.state.payment.transactionRef =
        jsOrStrOpt (cbCheckoutRequestId body) st.payment.transactionRef ∧
      (cbCheckoutRequestId body ≠ "" →
        out.state.payment.transactionRef = some (cbCheckoutRequestId body)) ∧
      (cbCheckoutRequestId body = "" →
        out.state.payment.transactionRef = st.payment.transactionRef) ∧
      out.state.payment.meta = mergeMpesaMeta st.payment.meta (failureCallbackPatch body now) ∧
      out.effects = Effects.zero) ∧
    (∀ st q rc now c, st.payment.status = .PENDING →
      checkoutRequestIdOfMeta st.payment.meta = some c →
      q.resultCode = some rc → rc ≠ 0 →
      reconcilePendingMpesaPayment st (.ok q) now =
        (pollFailureState "STK_QUERY" st q rc now, Effects.zero) ∧
      (pollFailureState "STK_QUERY" st q rc now).payment.status = .FAILED ∧
      (pollFailureState "STK_QUERY" st q rc now).orderStatus = .PENDING_PAYMENT ∧
      (∀ r, st.payment.transactionRef = some r → r ≠ "" →
        (pollFailureState "STK_QUERY" st q rc now).payment.transactionRef = some r) ∧
      (st.payment.transactionRef = none →
        (pollFailureState "STK_QUERY" st q rc now).payment.transactionRef =
          some q.checkoutRequestId)) := by
  constructor
  · intro st body now out hout hns hrc
    unfold mpesaCallback at hout
    by_cases h1 : jsFalsy (cbStk body) = true
    · rw [if_pos h1] at hout
      exact Except.noConfusion hout
    · rw [if_neg h1, if_neg hrc, if_neg hns] at hout
      injection hout with hout
      subst hout
      refine ⟨rfl, rfl, rfl, ?_, ?_, rfl, rfl⟩
      · intro h
        show jsOrStrOpt (cbCheckoutRequestId body) st.payment.transactionRef = _
        unfold jsOrStrOpt
        rw [if_neg h]
      · intro h
        show jsOrStrOpt (cbCheckoutRequestId body) st.payment.transactionRef = _
        unfold jsOrStrOpt
        rw [if_pos h]
  · intro st q rc now c hp hcid hq hrc0
    have hne : ¬(q.resultCode = some 0) := by
      rw [hq]
      intro hcontra
      injection hcontra with hcontra
      exact hrc0 hcontra
    constructor
    · unfold reconcilePendingMpesaPayment reconcileCore
      rw [if_pos hp, hcid]
      dsimp only
      rw [if_neg hne, hq]
    · refine ⟨rfl, rfl, ?_, ?_⟩
      · intro r hr hrne
        show some (jsOrOptStr st.payment.transactionRef q.checkoutRequestId) = some r
        rw [hr]
        show some (if r = "" then q.checkoutRequestId else r) = some r
        rw [if_neg hrne]
      · intro hr
        show some (jsOrOptStr st.payment.transactionRef q.checkoutRequestId) =
          some q.checkoutRequestId
        rw [hr]
        rfl

/-- Witness for the amended C4 on concrete data: the failure callback fails
the payment, reverts the order and overwrites the existing reference with
the session id; the poll failure path on a reference-less payment falls
back to the session id. -/
theorem failure_transition_effects_witness :
    exFailureOutcome.state.payment.status = .FAILED ∧
    exFailureOutcome.state.orderStatus = .PENDING_PAYMENT ∧
    exFailureOutcome.state.payment.transactionRef = some (cbCheckoutRequestId exFailureBody) ∧
    reconcilePendingMpesaPayment exPendingPayState (.ok exFailQuery) "t" =
      (pollFailureState "STK_QUERY" exPendingPayState exFailQuery 1032 "t", Effects.zero) ∧
    (pollFailureState "STK_QUERY" exPendingPayState exFailQuery 1032 "t").payment.transactionRef =
      some exFailQuery.checkoutRequestId :=
  ⟨(failure_transition_effects.1 exPendingWithRefState exFailureBody "2026-02-28T00:00:03Z"
      exFailureOutcome rfl (by decide) (by decide)).1,
   (failure_transition_effects.1 exPendingWithRefState exFailureBody "2026-02-28T00:00:03Z"
      exFailureOutcome rfl (by decide) (by decide)).2.1,
   (failure_transition_effects.1 exPendingWithRefState exFailureBody "2026-02-28T00:00:03Z"
      exFailureOutcome rfl (by decide) (by decide)).2.2.2.1 (by decide),
   (failure_transition_effects.2 exPendingPayState exFailQuery 1032 "t" "ws_CO_7" rfl rfl rfl
      (by decide)).1,
   (failure_transition_effects.2 exPendingPayState exFailQuery 1032 "t" "ws_CO_7" rfl rfl rfl
      (by decide)).2.2.2.2 rfl⟩

/-- C5: receipt issuance is total over its outcomes and at-most-once: a
non-SUCCESS payment yields null with no receipt and no error; an existing
receipt is returned unchanged; otherwise exactly one receipt is created (the
transaction re-checks the receipt and the status on the transaction-time
row) and every further invocation returns that same receipt without change;
when all five candidate numbers collide with taken numbers the call fails
with the 500 INTERNAL error and no receipt is created. -/
theorem receipt_issuance_idempotent :
    (∀ st today now rands, st.status ≠ .SUCCESS →
      ensureReceiptForSuccessfulPayment st today now rands = .ok (st, none)) ∧
    (∀ st r today now rands, st.status = .SUCCESS → st.receipt = some r →
      ensureReceiptForSuccessfulPayment st today now rands = .ok (st, some r)) ∧
    (∀ st today now rands num, st.status = .SUCCESS → st.receipt = none →
      freshReceiptNumber st.takenNumbers today rands = some num →
      ensureReceiptForSuccessfulPayment st today now rands =
        .ok (issuedState st now num, some (issuedReceipt st now num)) ∧
      (issuedState st now num).receipt = some (issuedReceipt st now num) ∧
      (∀ today2 now2 rands2,
        ensureReceiptForSuccessfulPayment (issuedState st now num) today2 now2 rands2 =
          .ok (issuedState st now num, some (issuedReceipt st now num)))) ∧
    (∀ st today now rands, st.status = .SUCCESS → st.receipt = none →
      freshReceiptNumber st.takenNumbers today rands = none →
      ensureReceiptForSuccessfulPayment st today now rands =
        .error ⟨"Unable to generate unique receipt number", 500⟩) ∧
    (∀ current identity snap sub tot today now rands r, current.receipt = some r →
      issueReceiptTx current identity snap sub tot today now rands = .ok (current, r)) := by
  refine ⟨?_, ?_, ?_, ?_, ?_⟩
  · intro st today now rands h
    unfold ensureReceiptForSuccessfulPayment
    rw [if_neg h]
  · intro st r today now rands hs hr
    unfold ensureReceiptForSuccessfulPayment
    rw [if_pos hs, hr]
  · intro st today now rands num hs hr hnum
    refine ⟨?_, rfl, ?_⟩
    · unfold ensureReceiptForSuccessfulPayment issueReceiptTx
      rw [if_pos hs, hr, hnum]
      dsimp only
      rw [if_pos hs]
      rfl
    · intro today2 now2 rands2
      unfold ensureReceiptForSuccessfulPayment
      rw [if_pos (show (issuedState st now num).status = .SUCCESS from hs)]
      rfl
  · intro st today now rands hs hr hnum
    unfold ensureReceiptForSuccessfulPayment issueReceiptTx
    rw [if_pos hs, hr, hnum]
    dsimp only
    rw [if_pos hs]
  · intro current identity snap sub tot today now rands r hr
    unfold issueReceiptTx
    rw [hr]

/-- Witness for C5 on concrete data: the first issuance creates the receipt
numbered RCT-20260228-123456 and a second issuance returns that same receipt
with no further change. -/
theorem receipt_issuance_idempotent_witness :
    ensureReceiptForSuccessfulPayment exReceiptSt exToday "2026-02-28T00:00:05Z" exRands =
      .ok (issuedState exReceiptSt "2026-02-28T00:00:05Z" "RCT-20260228-123456",
           some (issuedReceipt exReceiptSt "2026-02-28T00:00:05Z" "RCT-20260228-123456")) ∧
    ensureReceiptForSuccessfulPayment
        (issuedState exReceiptSt "2026-02-28T00:00:05Z" "RCT-20260228-123456")
        exToday "2026-02-28T00:00:06Z" exRands =
      .ok (issuedState exReceiptSt "2026-02-28T00:00:05Z" "RCT-20260228-123456",
           some (issuedReceipt exReceiptSt "2026-02-28T00:00:05Z" "RCT-20260228-123456")) :=
  ⟨(receipt_issuance_idempotent.2.2.1 exReceiptSt exToday "2026-02-28T00:00:05Z" exRands
      "RCT-20260228-123456" rfl rfl rfl).1,
   (receipt_issuance_idempotent.2.2.1 exReceiptSt exToday "2026-02-28T00:00:05Z" exRands
      "RCT-20260228-123456" rfl rfl rfl).2.2 exToday "2026-02-28T00:00:06Z" exRands⟩

theorem stockOf_decrementStock (ps : List Product) (pid' : Nat) (q : Int) (pid : Nat) :
    stockOf (decrementStock ps pid' q) pid =
      (stockOf ps pid).map (fun s => if pid = pid' then s - q else s) := by
  induction ps with
  | nil => rfl
  | cons p t ih =>
    unfold stockOf lookupProduct decrementStock at ih ⊢
    rw [List.map_cons]
    have hhead : (if p.pid = pid' then Product.mk p.pid p.name p.price (p.stock - q) else p).pid
        = p.pid := by
      by_cases hd : p.pid = pid' <;> simp [hd]
    by_cases hp : p.pid = pid
    · rw [List.find?_cons_of_pos _ (by rw [decide_eq_true_eq, hhead]; exact hp),
        List.find?_cons_of_pos _ (by rw [decide_eq_true_eq]; exact hp)]
      by_cases hd : p.pid = pid'
      · rw [if_pos hd]
        simp only [Option.map_some']
        rw [if_pos (hp ▸ hd)]
      · rw [if_neg hd]
        simp only [Option.map_some']
        rw [if_neg (fun hcontra => hd (hp.symm ▸ hcontra))]
    · rw [List.find?_cons_of_neg _ (by rw [decide_eq_true_eq, hhead]; exact hp),
        List.find?_cons_of_neg _ (by rw [decide_eq_true_eq]; exact hp)]
      exact ih

theorem foldl_qty_init (xs : List (CartItem × Product)) :
    ∀ a : Int, xs.foldl (fun s lp => s + lp.1.quantity) a =
      a + xs.foldl (fun s lp => s + lp.1.quantity) 0 := by
  induction xs with
  | nil => intro a; simp
  | cons lp rest ih =>
    intro a
    rw [List.foldl_cons, List.foldl_cons, ih (a + lp.1.quantity), ih (0 + lp.1.quantity)]
    ring

theorem stockOf_foldl_decrement (lines : List (CartItem × Product)) :
    ∀ (ps : List Product) (pid : Nat),
      stockOf (lines.foldl (fun acc lp => decrementStock acc lp.1.productId lp.1.quantity) ps) pid
        = (stockOf ps pid).map (fun s => s - cartQty lines pid) := by
  induction lines with
  | nil =>
    intro ps pid
    simp [cartQty]
  | cons lp rest ih =>
    intro ps pid
    rw [List.foldl_cons, ih, stockOf_decrementStock, Option.map_map]
    congr 1
    funext s
    show (if pid = lp.1.productId then s - lp.1.quantity else s) - cartQty rest pid
      = s - cartQty (lp :: rest) pid
    unfold cartQty
    by_cases hp : lp.1.productId = pid
    · rw [if_pos hp.symm, List.filter_cons_of_pos (by simp [hp]), List.foldl_cons,
        foldl_qty_init (rest.filter (fun x => x.1.productId = pid)) (0 + lp.1.quantity)]
      ring
    · rw [if_neg (fun hcontra => hp hcontra.symm),
        List.filter_cons_of_neg (by simp [hp])]

/-- C10: every receipt created by issuance has tax 0, shipping fee 0,
currency KES, subtotal equal to the sum of the order line items' subtotals
rounded to two decimals, total equal to the order's total, and a receipt
number of the form RCT-, the issuance date as YYYYMMDD, a hyphen and a
6-digit random suffix. -/
theorem issued_receipt_fields (st st2 : ReceiptState) (r : ReceiptRow)
    (today : DateYMD) (now : String) (rands : Nat → Nat)
    (h : ensureReceiptForSuccessfulPayment st today now rands = .ok (st2, some r))
    (hr : st.receipt = none) :
    r.tax = 0 ∧ r.shippingFee = 0 ∧ r.currency = "KES" ∧
    r.subtotal = round2 (st.order.items.foldl (fun s it => s + it.subtotal) 0) ∧
    r.total = st.order.total ∧
    (∃ i, i < 5 ∧ r.receiptNumber = generateReceiptNumber today (rands i)) ∧
    (∀ d n, generateReceiptNumber d n = "RCT-" ++ dateStamp d ++ "-" ++ genSuffix n) ∧
    (∀ n, (genSuffix n).length = 6 ∧ ∀ c ∈ (genSuffix n).data, c.isDigit = true) := by
  unfold ensureReceiptForSuccessfulPayment issueReceiptTx at h
  by_cases hs : st.status = .SUCCESS
  · rw [if_pos hs, hr] at h
    dsimp only at h
    rw [if_pos hs] at h
    cases hnum : freshReceiptNumber st.takenNumbers today rands with
    | none =>
      rw [hnum] at h
      exact Except.noConfusion h
    | some num =>
      rw [hnum] at h
      dsimp only at h
      injection h with h
      have hsnd := congrArg Prod.snd h
      dsimp only at hsnd
      injection hsnd with hsnd
      subst hsnd
      refine ⟨rfl, rfl, rfl, rfl, rfl, ?_, fun d n => rfl,
        fun n => ⟨genSuffix_length n, genSuffix_digits n⟩⟩
      have hmem : num ∈ receiptCandidates today rands :=
        List.mem_of_find?_eq_some hnum
      rcases List.mem_map.mp hmem with ⟨i, hi, hgen⟩
      exact ⟨i, List.mem_range.mp hi, hgen.symm⟩
  · rw [if_neg hs] at h
    injection h with h
    have hsnd := congrArg Prod.snd h
    exact Option.noConfusion hsnd

/-- Witness for C10 on the concrete issuance of C5's witness: the created
receipt has zero tax and shipping fee, currency KES, the rounded item-sum
subtotal, the order's total and the generated number for the draw 123456. -/
theorem issued_receipt_fields_witness :
    (issuedReceipt exReceiptSt "2026-02-28T00:00:05Z" "RCT-20260228-123456").tax = 0 ∧
    (issuedReceipt exReceiptSt "2026-02-28T00:00:05Z" "RCT-20260228-123456").shippingFee = 0 ∧
    (issuedReceipt exReceiptSt "2026-02-28T00:00:05Z" "RCT-20260228-123456").currency = "KES" ∧
    (issuedReceipt exReceiptSt "2026-02-28T00:00:05Z" "RCT-20260228-123456").subtotal =
      round2 (exReceiptSt.order.items.foldl (fun s it => s + it.subtotal) 0) ∧
    (issuedReceipt exReceiptSt "2026-02-28T00:00:05Z" "RCT-20260228-123456").total =
      exReceiptSt.order.total :=
  ⟨(issued_receipt_fields exReceiptSt
      (issuedState exReceiptSt "2026-02-28T00:00:05Z" "RCT-20260228-123456")
      (issuedReceipt exReceiptSt "2026-02-28T00:00:05Z" "RCT-20260228-123456")
      exToday "2026-02-28T00:00:05Z" exRands rfl rfl).1,
   (issued_receipt_fields exReceiptSt
      (issuedState exReceiptSt "2026-02-28T00:00:05Z" "RCT-20260228-123456")
      (issuedReceipt exReceiptSt "2026-02-28T00:00:05Z" "RCT-20260228-123456")
      exToday "2026-02-28T00:00:05Z" exRands rfl rfl).2.1,
   (issued_receipt_fields exReceiptSt
      (issuedState exReceiptSt "2026-02-28T00:00:05Z" "RCT-20260228-123456")
      (issuedReceipt exReceiptSt "2026-02-28T00:00:05Z" "RCT-20260228-123456")
      exToday "2026-02-28T00:00:05Z" exRands rfl rfl).2.2.1,
   (issued_receipt_fields exReceiptSt
      (issuedState exReceiptSt "2026-02-28T00:00:05Z" "RCT-20260228-123456")
      (issuedReceipt exReceiptSt "2026-02-28T00:00:05Z" "RCT-20260228-123456")
      exToday "2026-02-28T00:00:05Z" exRands rfl rfl).2.2.2.1,
   (issued_receipt_fields exReceiptSt
      (issuedState exReceiptSt "2026-02-28T00:00:05Z" "RCT-20260228-123456")
      (issuedReceipt exReceiptSt "2026-02-28T00:00:05Z" "RCT-20260228-123456")
      exToday "2026-02-28T00:00:05Z" exRands rfl rfl).2.2.2.2.1⟩

/-- C6: checkout over a cart with any line requesting more than the current
stock aborts with the insufficient-stock error before the transaction, so
nothing is persisted; when every line has sufficient stock (and the M-Pesa
payer name requirement holds), the order, the payment, the per-line stock
decrements with their audit log rows and the cart clearing are committed as
the single state `checkoutCommit`, whose products carry exactly the old
stock minus the requested quantities. -/
theorem checkout_stock_guard_and_atomicity :
    (∀ st method sn payer oid cref lines lp,
      resolveCart st = some lines →
      lines.find? (fun x => decide (x.2.stock < x.1.quantity)) = some lp →
      checkout st method sn payer oid cref =
        .error ⟨"Insufficient stock for " ++ lp.2.name, 400⟩) ∧
    (∀ st method sn payer oid cref lines,
      resolveCart st = some lines →
      st.cart.isEmpty = false →
      (∀ lp ∈ lines, lp.1.quantity ≤ lp.2.stock) →
      (method = .MPESA → jsTrim (payer.getD "") ≠ "") →
      checkout st method sn payer oid cref =
        .ok (checkoutCommit st method sn payer oid cref lines,
             if method = .CARD then ⟨1, 1⟩ else Effects.zero) ∧
      (checkoutCommit st method sn payer oid cref lines).cart = [] ∧
      (checkoutCommit st method sn payer oid cref lines).orders =
        checkoutOrder method oid lines :: st.orders ∧
      (checkoutCommit st method sn payer oid cref lines).payments =
        checkoutPayment method sn payer cref lines :: st.payments ∧
      (checkoutCommit st method sn payer oid cref lines).stockLogs =
        st.stockLogs ++ checkoutLogs oid lines ∧
      (∀ pid, stockOf (checkoutCommit st method sn payer oid cref lines).products pid =
        (stockOf st.products pid).map (fun s => s - cartQty lines pid))) := by
  constructor
  · intro st method sn payer oid cref lines lp hres hfind
    unfold checkout
    have hne : st.cart.isEmpty = false := by
      cases hc : st.cart with
      | nil =>
        unfold resolveCart at hres
        rw [hc] at hres
        injection hres with hres
        rw [← hres] at hfind
        exact Option.noConfusion hfind
      | cons a t => rfl
    rw [if_neg (by rw [hne]; exact Bool.false_ne_true), hres]
    dsimp only
    rw [hfind]
  · intro st method sn payer oid cref lines hres hne hstock hname
    have hfind : lines.find? (fun x => decide (x.2.stock < x.1.quantity)) = none := by
      rw [List.find?_eq_none]
      intro x hx
      simp only [decide_eq_true_eq, not_lt]
      exact hstock x hx
    refine ⟨?_, rfl, rfl, rfl, rfl, fun pid => stockOf_foldl_decrement lines st.products pid⟩
    unfold checkout
    rw [if_neg (by rw [hne]; exact Bool.false_ne_true), hres]
    dsimp only
    rw [hfind]
    dsimp only
    by_cases hm : method = .MPESA
    · rw [if_neg (by simp [hm, hname hm])]
    · rw [if_neg (by simp [hm])]

/-- Witness for C6 on concrete data: the over-stock cart aborts with the
insufficient-stock error, and the well-stocked M-Pesa checkout commits the
atomic state whose mug stock satisfies the decrement equation. -/
theorem checkout_stock_guard_and_atomicity_witness :
    checkout exShopBad .MPESA "Jane Buyer" (some "Jane B") 7001 "" =
      .error ⟨"Insufficient stock for Mug", 400⟩ ∧
    checkout exShopOk .MPESA "Jane Buyer" (some "Jane B") 7001 "" =
      .ok (checkoutCommit exShopOk .MPESA "Jane Buyer" (some "Jane B") 7001 "" exOkLines,
           Effects.zero) ∧
    stockOf (checkoutCommit exShopOk .MPESA "Jane Buyer" (some "Jane B") 7001 "" exOkLines).products
        11 =
      (stockOf exShopOk.products 11).map (fun s => s - cartQty exOkLines 11) :=
  ⟨checkout_stock_guard_and_atomicity.1 exShopBad .MPESA "Jane Buyer" (some "Jane B") 7001 ""
     [(⟨11, 7⟩, ⟨11, "Mug", 100, 5⟩)] (⟨11, 7⟩, ⟨11, "Mug", 100, 5⟩) rfl rfl,
   (checkout_stock_guard_and_atomicity.2 exShopOk .MPESA "Jane Buyer" (some "Jane B") 7001 ""
     exOkLines rfl rfl (by intro lp hlp; fin_cases hlp <;> decide)
     (fun _ => by decide)).1,
   (checkout_stock_guard_and_atomicity.2 exShopOk .MPESA "Jane Buyer" (some "Jane B") 7001 ""
     exOkLines rfl rfl (by intro lp hlp; fin_cases hlp <;> decide)
     (fun _ => by decide)).2.2.2.2.2 11⟩

/-- C7: the orders-list, order-status and payment-status read handlers run
poll reconciliation before computing their response, so every returned view
is the view of the reconciled state — the i-th order view is the view of the
i-th row reconciled against its provider response, the order-status lookup
searches the reconciled rows, the payment-status response is built from the
reconciled payment (with one additional best-effort receipt run) — and a
PENDING payment with a recorded session id whose provider now reports
success with receipt `ref` is returned as SUCCESS/CONFIRMED with
transactionRef `ref`. -/
theorem read_paths_reconcile_before_response :
    (∀ rows qs now i, ((ordersListHandler rows qs now).2.1)[i]? =
      rows[i]?.map (fun r => orderView (reconcileUserRow r (qs i) now).1)) ∧
    (∀ rows qs now oid, (orderStatusHandler rows qs now oid).2.1 =
      ((reconcilePendingMpesaPaymentsForUser rows qs now).1.find?
        (fun r => r.orderId = oid)).map orderView) ∧
    (∀ st q now,
      (mpesaPaymentStatusHandler st q now).1 = (reconcilePendingMpesaPayment st q now).1 ∧
      (mpesaPaymentStatusHandler st q now).2.1.status =
        (reconcilePendingMpesaPayment st q now).1.payment.status ∧
      (mpesaPaymentStatusHandler st q now).2.1.orderStatus =
        (reconcilePendingMpesaPayment st q now).1.orderStatus ∧
      (mpesaPaymentStatusHandler st q now).2.2.receiptRuns =
        (reconcilePendingMpesaPayment st q now).2.receiptRuns + 1) ∧
    (∀ st q now c ref, st.payment.status = .PENDING →
      checkoutRequestIdOfMeta st.payment.meta = some c →
      q.resultCode = some 0 → q.mpesaReceiptNumber = some ref → ref ≠ "" →
      (mpesaPaymentStatusHandler st (.ok q) now).2.1.status = .SUCCESS ∧
      (mpesaPaymentStatusHandler st (.ok q) now).2.1.transactionRef = some ref ∧
      (mpesaPaymentStatusHandler st (.ok q) now).2.1.orderStatus = .CONFIRMED) := by
  refine ⟨?_, fun rows qs now oid => rfl, fun st q now => ⟨rfl, rfl, rfl, rfl⟩, ?_⟩
  · intro rows qs now i
    unfold ordersListHandler reconcilePendingMpesaPaymentsForUser
    dsimp only
    rw [List.getElem?_map, List.getElem?_map, List.getElem?_map, List.getElem?_enum]
    cases rows[i]? <;> rfl
  · intro st q now c ref hp hcid h0 href hrefne
    have hrec : reconcilePendingMpesaPayment st (.ok q) now =
        (pollSuccessState "STK_QUERY" st q now, ⟨1, 1⟩) := by
      unfold reconcilePendingMpesaPayment reconcileCore
      rw [if_pos hp, hcid]
      dsimp only
      rw [if_pos h0]
    unfold mpesaPaymentStatusHandler
    rw [hrec]
    refine ⟨rfl, ?_, rfl⟩
    show some (pollReceiptNumber st q) = some ref
    unfold pollReceiptNumber
    rw [href]
    show some (if ref = "" then jsOrOptStr st.payment.transactionRef q.checkoutRequestId
      else ref) = some ref
    rw [if_neg hrefne]

/-- Witness for C7 on concrete data: the status read of the stuck PENDING
payment returns SUCCESS, transactionRef ABC123 and a CONFIRMED order once
the provider reports success, and the orders-list view of the single row is
the reconciled row's view. -/
theorem read_paths_reconcile_before_response_witness :
    (mpesaPaymentStatusHandler exPendingPayState (.ok exSuccessQuery) "t").2.1.status =
      .SUCCESS ∧
    (mpesaPaymentStatusHandler exPendingPayState (.ok exSuccessQuery) "t").2.1.transactionRef =
      some "ABC123" ∧
    (mpesaPaymentStatusHandler exPendingPayState (.ok exSuccessQuery) "t").2.1.orderStatus =
      .CONFIRMED ∧
    ((ordersListHandler exUserRows (fun _ => .ok exSuccessQuery) "t").2.1)[0]? =
      (exUserRows[0]?).map
        (fun r => orderView (reconcileUserRow r ((fun _ => Except.ok exSuccessQuery) 0) "t").1) :=
  ⟨(read_paths_reconcile_before_response.2.2.2 exPendingPayState exSuccessQuery "t" "ws_CO_7"
      "ABC123" rfl rfl rfl rfl (by decide)).1,
   (read_paths_reconcile_before_response.2.2.2 exPendingPayState exSuccessQuery "t" "ws_CO_7"
      "ABC123" rfl rfl rfl rfl (by decide)).2.1,
   (read_paths_reconcile_before_response.2.2.2 exPendingPayState exSuccessQuery "t" "ws_CO_7"
      "ABC123" rfl rfl rfl rfl (by decide)).2.2,
   read_paths_reconcile_before_response.1 exUserRows (fun _ => .ok exSuccessQuery) "t" 0⟩

end RedCart
